import Mathlib

/-!
# Verification of the bank-system transfer and event-consumption protocols

Shallow embedding of the parts of `amitkaplansky/bank-system` that the
verified properties are about:

* `api-service/app/services/account_service.py` — account lookup and the
  validation guards (`validate_account_for_transfer`,
  `update_account_balance`, `check_daily_transfer_limits`);
* `api-service/app/services/transaction_service.py` — `execute_transfer`
  (the core transfer protocol, including its `except` recovery block) and
  `_generate_transaction_id`;
* `api-service/app/kafka_client.py` — the best-effort producer;
* `consumer-service/app/processors/transaction_processor.py` — the
  idempotent event processor;
* `consumer-service/app/kafka_consumer.py` — the per-message consume /
  commit / failed-topic routing step.

Modelling conventions:

* `DECIMAL(15,2)` monetary values are embedded as `ℚ` (exact arithmetic,
  as `decimal.Decimal` is exact for these operations).
* The committed database state is a `Ledger` (a list of accounts plus the
  list of committed transaction rows).  A call to `execute_transfer`
  is a function from the committed state (plus the random draw used by
  `random.randint` and a broker-availability flag) to the new committed
  state, the list of events handed to the broker, and the returned value
  or raised error.
* Exceptions are embedded as `Except TransferError`.  Python code that
  catches all exceptions and returns normally is embedded as a total
  function.
* The Kafka producer (`kafka_client.py:43-60`) catches every send error
  and returns normally, so publishing is a total function whose only
  observable effect is whether the event reaches the broker log
  (`brokerUp = true`) or is dropped (`brokerUp = false`).
-/

/-- `db/models/account.py` `AccountType`. -/
inductive AccountType
  | checking
  | savings
  | business
  | vip
deriving DecidableEq, Inhabited

/-- The `.value` string of the Python enum member (`enum.Enum` values). -/
def AccountType.value : AccountType → String
  | .checking => "checking"
  | .savings => "savings"
  | .business => "business"
  | .vip => "vip"

/-- `db/models/account.py` `AccountStatus`. -/
inductive AccountStatus
  | active
  | inactive
  | frozen
  | closed
deriving DecidableEq, Inhabited

/-- `db/models/transaction.py` `TransactionStatus`. -/
inductive TransactionStatus
  | pending
  | completed
  | failed
  | cancelled
deriving DecidableEq, Inhabited

/-- `db/models/account.py` `Account`: the columns the transfer protocol
reads or writes (`customer_id` and `account_number` play no role in the
verified properties and are omitted). -/
structure Account where
  id : Nat
  balance : ℚ
  currency : String
  status : AccountStatus
  account_type : AccountType
deriving DecidableEq, Inhabited

/-- `db/models/transaction.py` `Transaction`: the columns `execute_transfer`
fills (the constant metadata columns `processed_by`, `source`, the wall-clock
`timestamp` and the free-text `description` are omitted). -/
structure Transaction where
  transaction_id : Nat
  from_account_id : Nat
  to_account_id : Nat
  from_balance_before : ℚ
  from_balance_after : ℚ
  to_balance_before : ℚ
  to_balance_after : ℚ
  amount : ℚ
  currency : String
  status : TransactionStatus
deriving DecidableEq, Inhabited

/-- The committed database state: the `accounts` and `transactions` tables. -/
structure Ledger where
  accounts : List Account
  transactions : List Transaction
deriving DecidableEq, Inhabited

/-- The `ValueError`s / database errors `execute_transfer` and its guards
can raise. -/
inductive TransferError
  | nonPositiveAmount
  | sameAccount
  | accountNotFound (account_id : Nat)
  | accountNotActive (account_id : Nat)
  | insufficientFunds (account_id : Nat)
  | currencyMismatch
  | dailyLimitExceeded (daily_limit : ℚ) (account_class : String)
  | negativeBalance
  | duplicateTransactionId (transaction_id : Nat)
deriving DecidableEq, Inhabited

/-- `account_service.py:18-31` `AccountService.get_account_by_id`:
`SELECT ... WHERE Account.id == account_id`, `scalar_one_or_none`. -/
def get_account_by_id (l : Ledger) (account_id : Nat) : Option Account :=
  l.accounts.find? (fun a => a.id = account_id)

/-- Python truthiness of the `Optional[Decimal]` argument `required_amount`:
`None` and `Decimal("0")` are falsy, every other value is truthy
(`account_service.py:51` `if required_amount and ...`). -/
def decimalTruthy : Option ℚ → Bool
  | none => false
  | some q => q ≠ 0

/-- `account_service.py:33-57` `AccountService.validate_account_for_transfer`:
not-found, not-active, then (only when `required_amount` is truthy) the
insufficient-funds check `account.balance < required_amount`. -/
def validate_account_for_transfer (l : Ledger) (account_id : Nat)
    (required_amount : Option ℚ) : Except TransferError Account :=
  match get_account_by_id l account_id with
  | none => .error (.accountNotFound account_id)
  | some account =>
    if account.status ≠ AccountStatus.active then
      .error (.accountNotActive account_id)
    else if decimalTruthy required_amount
        ∧ account.balance < required_amount.getD 0 then
      .error (.insufficientFunds account_id)
    else
      .ok account

/-- `account_service.py:59-71` `AccountService.update_account_balance`:
rejects a negative new balance, otherwise mutates the account in place
(returned here as the updated `Account` value). -/
def update_account_balance (account : Account) (new_balance : ℚ) :
    Except TransferError Account :=
  if new_balance < 0 then
    .error .negativeBalance
  else
    .ok { account with balance := new_balance }

/-- `account_service.py:83-88`: the per-class daily limit, selected by
comparing `account_type.value` against the strings `"vip"` and
`"business"` with a catch-all of 100000. -/
def dailyLimit (t : AccountType) : ℚ :=
  if t.value = "vip" then 1000000
  else if t.value = "business" then 500000
  else 100000

/-- `account_service.py:73-96` `AccountService.check_daily_transfer_limits`:
raises iff `amount > daily_limit`, with an error naming the limit and the
account class. -/
def check_daily_transfer_limits (account : Account) (amount : ℚ) :
    Except TransferError Bool :=
  if dailyLimit account.account_type < amount then
    .error (.dailyLimitExceeded (dailyLimit account.account_type)
              account.account_type.value)
  else
    .ok true

/-- `transaction_service.py:192-196` `TransactionService._generate_transaction_id`:
`random.randint(100000, 999999)`, embedded as a function of the random
draw `rng`.  Note it takes no database state: no uniqueness check. -/
def generate_transaction_id (rng : Nat) : Nat :=
  100000 + rng % 900000

/-- `transaction_service.py:69-84`: the pending `Transaction` row built
from the captured before-balances (`:57-59`), the computed after-balances
(`:61-63`) and the generated identifier. -/
def pendingTx (rng : Nat) (from_account_id to_account_id : Nat)
    (from_account to_account : Account) (amount : ℚ) (currency : String) :
    Transaction :=
  { transaction_id := generate_transaction_id rng
    from_account_id := from_account_id
    to_account_id := to_account_id
    from_balance_before := from_account.balance
    from_balance_after := from_account.balance - amount
    to_balance_before := to_account.balance
    to_balance_after := to_account.balance + amount
    amount := amount
    currency := currency
    status := TransactionStatus.pending }

/-- Outcome of the `try` body of `execute_transfer` up to the commit
decision: success with the completed row, a failure raised before the
`Transaction` object exists (`transaction_service.py:36-55`), or a failure
raised after it exists (`:87-95`, flush / balance updates), which the
`except` block (`:126`, `'transaction' in locals()`) treats specially. -/
inductive CoreOutcome
  | okTx (tx : Transaction)
  | failNoRow (e : TransferError)
  | failWithRow (row : Transaction) (e : TransferError)
deriving DecidableEq, Inhabited

/-- `transaction_service.py:36-98`: the `try` body of
`TransactionService.execute_transfer` up to the commit.  In order:
positive-amount check, distinct-accounts check, validation of the source
(with required amount) and destination accounts, currency match, daily
limit, pending-row construction and flush (the flush enforces the
`transaction_id` UNIQUE constraint of `db/models/transaction.py:17`),
then the two balance updates and the status flip to completed. -/
def transfer_core (l : Ledger) (rng : Nat)
    (from_account_id to_account_id : Nat) (amount : ℚ) (currency : String) :
    CoreOutcome :=
  if amount ≤ 0 then .failNoRow .nonPositiveAmount
  else if from_account_id = to_account_id then .failNoRow .sameAccount
  else
    match validate_account_for_transfer l from_account_id (some amount) with
    | .error e => .failNoRow e
    | .ok from_account =>
      match validate_account_for_transfer l to_account_id none with
      | .error e => .failNoRow e
      | .ok to_account =>
        if from_account.currency ≠ currency ∨ to_account.currency ≠ currency then
          .failNoRow .currencyMismatch
        else
          match check_daily_transfer_limits from_account amount with
          | .error e => .failNoRow e
          | .ok _ =>
            if l.transactions.any
                (fun tr => tr.transaction_id = generate_transaction_id rng) then
              .failWithRow
                (pendingTx rng from_account_id to_account_id
                  from_account to_account amount currency)
                (.duplicateTransactionId (generate_transaction_id rng))
            else
              match update_account_balance from_account
                  (from_account.balance - amount) with
              | .error e =>
                .failWithRow
                  (pendingTx rng from_account_id to_account_id
                    from_account to_account amount currency) e
              | .ok _ =>
                match update_account_balance to_account
                    (to_account.balance + amount) with
                | .error e =>
                  .failWithRow
                    (pendingTx rng from_account_id to_account_id
                      from_account to_account amount currency) e
                | .ok _ =>
                  .okTx { pendingTx rng from_account_id to_account_id
                            from_account to_account amount currency
                          with status := TransactionStatus.completed }

/-- An event handed to the broker by the api-service producer:
either a completed-transfer event (`Transaction.to_kafka_event`, sent to
`completedTransactions`) or a failed-transfer event — the shape the
`except` block tries to build at `transaction_service.py:132-139` for the
`failedTransactions` topic (in the current code the build raises on the
expunged row and is swallowed, so it is never actually sent; see
`execute_transfer`). -/
inductive ProducedEvent
  | completed (tx : Transaction)
  | failedTx (transaction_id : Nat) (error : TransferError)
      (retry_count : Nat) (original : Transaction)
deriving DecidableEq, Inhabited

/-- `kafka_client.py:43-60` `KafkaProducer.send_transaction_event`: wraps
the send in `try/except`, so it never raises; the event reaches the log
only when the broker is up and the producer started. -/
def kafkaSend (brokerUp : Bool) (log : List ProducedEvent)
    (event : ProducedEvent) : List ProducedEvent :=
  if brokerUp then log ++ [event] else log

instance {ε α : Type} [DecidableEq ε] [DecidableEq α] :
    DecidableEq (Except ε α) := fun x y =>
  match x, y with
  | .ok a, .ok b =>
    if h : a = b then isTrue (by rw [h]) else isFalse (by simp [h])
  | .error a, .error b =>
    if h : a = b then isTrue (by rw [h]) else isFalse (by simp [h])
  | .ok _, .error _ => isFalse (by simp)
  | .error _, .ok _ => isFalse (by simp)

/-- Result of one `execute_transfer` call: the committed database state
after the call, the events that reached the broker, and the returned
`Transaction` or the re-raised exception (`transaction_service.py:149`). -/
structure ExecResult where
  ledger : Ledger
  events : List ProducedEvent
  outcome : Except TransferError Transaction
deriving DecidableEq, Inhabited

/-- Write `balance` on the account row with the given id (the committed
effect of `update_account_balance` + `commit`). -/
def setBalance (accounts : List Account) (account_id : Nat) (b : ℚ) :
    List Account :=
  accounts.map (fun a => if a.id = account_id then { a with balance := b } else a)

/-- `transaction_service.py:101`: the atomic commit of the success path —
both balance writes and the completed row land together. -/
def commitSuccess (l : Ledger) (tx : Transaction) : Ledger :=
  { accounts := setBalance
      (setBalance l.accounts tx.from_account_id tx.from_balance_after)
      tx.to_account_id tx.to_balance_after
    transactions := l.transactions ++ [tx] }

/-- `transaction_service.py:22-149` `TransactionService.execute_transfer`:
the `try` body (`transfer_core`), then

* on success: commit, then the best-effort completed-event publish
  (`:104-113`, failures caught and swallowed), return the transaction;
* on failure with no `transaction` local: rollback only, re-raise;
* on failure with a `transaction` local (`:126-146`): the code attempts
  to flip the row's status to `failed`, commit it alone and publish a
  `retry_count = 0` failed event — but `session.rollback()` (`:123`) has
  already expunged the flushed-but-uncommitted row (SQLAlchemy rolls back
  its INSERT and returns the object to transient), so the follow-up
  `commit()` (`:128`) persists nothing, and
  `transaction.to_kafka_event()` (`:138`) dereferences the never-loaded
  `from_account`/`to_account` relationships of the expunged object and
  raises, which the inner `except` (`:145-146`) swallows, so no failed
  event is published either.  The observable behaviour of both failure
  arms is therefore the same: database unchanged, no events, original
  exception re-raised (`:149`). -/
def execute_transfer (l : Ledger) (brokerUp : Bool) (rng : Nat)
    (from_account_id to_account_id : Nat) (amount : ℚ) (currency : String) :
    ExecResult :=
  match transfer_core l rng from_account_id to_account_id amount currency with
  | .okTx tx =>
    { ledger := commitSuccess l tx
      events := kafkaSend brokerUp [] (.completed tx)
      outcome := .ok tx }
  | .failNoRow e =>
    { ledger := l
      events := []
      outcome := .error e }
  | .failWithRow _row e =>
    { ledger := l
      events := []
      outcome := .error e }

/-!
## Consumer side (`consumer-service`)

The consumer's event payloads are Python dicts; the fields the code reads
are embedded as `Option`-valued fields (`dict.get` returns `None` when
the key is absent).
-/

/-- A transaction-event payload as the consumer sees it
(`message.value` after JSON deserialization): the fields the processor
and the failed-topic routing read. -/
structure EventData where
  transaction_id : Option Int
  event_type : Option String
  retry_count : Option Int
  timestamp : Option String
  amount : Option ℚ
deriving DecidableEq, Inhabited

/-- The failed-transfer event built by
`kafka_consumer.py:149-156` `TransactionConsumer._send_to_failed_topic`. -/
structure FailedEvent where
  event_type : String
  timestamp : Option String
  transaction_id : Option Int
  error_message : String
  retry_count : Int
  original_event : EventData
deriving DecidableEq, Inhabited

/-- `kafka_consumer.py:149-156`: the failed event carries the original
payload intact plus `retry_count = transaction_data.get('retry_count', 0) + 1`
and the caller-supplied `error_message`. -/
def mkFailedEvent (transaction_data : EventData) (error_message : String) :
    FailedEvent :=
  { event_type := "failed_transaction"
    timestamp := transaction_data.timestamp
    transaction_id := transaction_data.transaction_id
    error_message := error_message
    retry_count := transaction_data.retry_count.getD 0 + 1
    original_event := transaction_data }

/-- The downstream dispatch steps of
`transaction_processor.py:69-71` (`_perform_regulatory_reporting`,
`_update_analytics`, `_send_notifications`). -/
inductive SideEffect
  | regulatory (transaction_id : Int)
  | analytics (transaction_id : Int)
  | notification (transaction_id : Int)
deriving DecidableEq, Inhabited

/-- Fault injection for the three dispatch steps: a `true` flag means the
corresponding `await` raises (the steps run in the order regulatory,
analytics, notifications, so a raise skips all later steps). -/
structure DispatchFaults where
  regulatoryFails : Bool
  analyticsFails : Bool
  notificationFails : Bool
deriving DecidableEq, Inhabited

/-- `transaction_processor.py:60-89`
`TransactionProcessor._process_completed_transaction`: runs the three
dispatch steps in order inside a `try`; any raise is caught and the
method returns `False` (with the effects already performed kept), else
`True`.  (`event_data['transaction_id']` raising `KeyError` on an absent
key is the `transaction_id = none` row.) -/
def process_completed_transaction (faults : DispatchFaults) (ev : EventData) :
    Bool × List SideEffect :=
  match ev.transaction_id with
  | none => (false, [])
  | some tid =>
    if faults.regulatoryFails then (false, [])
    else if faults.analyticsFails then (false, [.regulatory tid])
    else if faults.notificationFails then
      (false, [.regulatory tid, .analytics tid])
    else
      (true, [.regulatory tid, .analytics tid, .notification tid])

/-- The processor's in-process idempotency state:
`self.processed_transactions` (`transaction_processor.py:20`). -/
structure ProcState where
  processed : List Int
deriving DecidableEq, Inhabited

/-- `transaction_processor.py:22-58`
`TransactionProcessor.process_transaction_event`: truthiness check on
`transaction_id` (absent, `None` and `0` are all falsy), idempotency
check (`_is_already_processed`, `:115-117`), dispatch by
`event_data.get('event_type', 'transaction')`, and recording of the
identifier on success.  Returns the success flag, the new idempotency
state and the dispatch steps that ran. -/
def process_transaction_event (faults : DispatchFaults) (st : ProcState)
    (ev : EventData) : Bool × ProcState × List SideEffect :=
  match ev.transaction_id with
  | none => (false, st, [])
  | some tid =>
    if tid = 0 then (false, st, [])
    else if tid ∈ st.processed then (true, st, [])
    else if ev.event_type.getD "transaction" = "transaction" then
      match process_completed_transaction faults ev with
      | (true, effects) => (true, { processed := tid :: st.processed }, effects)
      | (false, effects) => (false, st, effects)
    else if ev.event_type.getD "transaction" = "failed_transaction" then
      -- `_process_failed_transaction` (`:91-113`) only logs and inspects
      -- the database inside its own try/except; it returns True.
      (true, { processed := tid :: st.processed }, [])
    else
      (false, st, [])

/-- `kafka_consumer.py:143-166` `TransactionConsumer._send_to_failed_topic`:
skips silently when the producer is unavailable, otherwise publishes the
failed event (send errors are caught, so this never raises). -/
def send_to_failed_topic (producerUp : Bool) (transaction_data : EventData)
    (error_message : String) : List FailedEvent :=
  if producerUp then [mkFailedEvent transaction_data error_message] else []

/-- `kafka_consumer.py:112-141` `TransactionConsumer._process_message`:
runs the processor and, when it reports failure, routes the message to
the failed topic with the message `"Processing failed"`.  Every exception
path inside is caught (`:114-141`), so the function is total: it always
returns the updated processor state and the failed events it sent. -/
def process_message (faults : DispatchFaults) (producerUp : Bool)
    (st : ProcState) (msg : EventData) : ProcState × List FailedEvent :=
  match process_transaction_event faults st msg with
  | (true, st2, _) => (st2, [])
  | (false, st2, _) => (st2, send_to_failed_topic producerUp msg "Processing failed")

/-- The observable outcome of one iteration of the consume loop. -/
structure ConsumeStep where
  state : ProcState
  failedSent : List FailedEvent
  committed : Bool
deriving DecidableEq, Inhabited

/-- `kafka_consumer.py:93-105`: one iteration of
`TransactionConsumer.consume_messages` on a pulled message:
`_process_message` (total, see above) followed by `consumer.commit()`,
both inside a `try` whose `except` skips the commit.  Since
`_process_message` never raises, the only way to reach the no-commit
branch is the commit call itself raising, modelled by `commitFails`. -/
def consume_one (faults : DispatchFaults) (producerUp commitFails : Bool)
    (st : ProcState) (msg : EventData) : ConsumeStep :=
  match process_message faults producerUp st msg with
  | (st2, sent) => { state := st2, failedSent := sent, committed := !commitFails }

/-!
## Concrete fixtures used by the witness theorems
-/

/-- A checking account with balance 10. -/
def acctA : Account :=
  { id := 1, balance := 10, currency := "ILS"
    status := AccountStatus.active, account_type := AccountType.checking }

/-- A checking account with balance 3. -/
def acctB : Account :=
  { id := 2, balance := 3, currency := "ILS"
    status := AccountStatus.active, account_type := AccountType.checking }

/-- A two-account ledger with no prior transactions. -/
def demoLedger : Ledger := { accounts := [acctA, acctB], transactions := [] }

/-- The completed row `execute_transfer demoLedger true 0 1 2 5 "ILS"`
produces (random draw 0, so the identifier is 100000). -/
def demoTx : Transaction :=
  { transaction_id := 100000, from_account_id := 1, to_account_id := 2
    from_balance_before := 10, from_balance_after := 5
    to_balance_before := 3, to_balance_after := 8
    amount := 5, currency := "ILS", status := TransactionStatus.completed }

/-- A checking account with balance 50 (the spec's insufficient-funds
scenario: transfer 100 from a balance of 50). -/
def acctP : Account :=
  { id := 1, balance := 50, currency := "ILS"
    status := AccountStatus.active, account_type := AccountType.checking }

/-- A checking account with balance 0, destination of the rejected
transfer. -/
def acctQ : Account :=
  { id := 2, balance := 0, currency := "ILS"
    status := AccountStatus.active, account_type := AccountType.checking }

/-- Ledger for the insufficient-funds scenario. -/
def poorLedger : Ledger := { accounts := [acctP, acctQ], transactions := [] }

/-- A committed row that already occupies transfer identifier 100000. -/
def priorTx : Transaction :=
  { transaction_id := 100000, from_account_id := 1, to_account_id := 2
    from_balance_before := 2, from_balance_after := 1
    to_balance_before := 0, to_balance_after := 1
    amount := 1, currency := "ILS", status := TransactionStatus.completed }

/-- The demo accounts plus a committed row whose identifier collides with
the one the next random draw 0 produces. -/
def dupLedger : Ledger := { accounts := [acctA, acctB], transactions := [priorTx] }

/-- An active account whose stored balance is already negative, so that
crediting it a small amount still leaves it negative: the destination
balance update then raises after the pending row was flushed. -/
def acctN : Account :=
  { id := 2, balance := -10, currency := "ILS"
    status := AccountStatus.active, account_type := AccountType.checking }

/-- Ledger in which the transfer fails after the flush: the destination
update `-10 + 5 < 0` raises `NegativeBalance`. -/
def negLedger : Ledger := { accounts := [acctA, acctN], transactions := [] }

/-- A checking account used for the daily-ceiling scenario. -/
def checkingAccount : Account :=
  { id := 7, balance := 5000000, currency := "ILS"
    status := AccountStatus.active, account_type := AccountType.checking }

/-- No dispatch step raises. -/
def noFaults : DispatchFaults :=
  { regulatoryFails := false, analyticsFails := false, notificationFails := false }

/-- Only the third dispatch step (notifications) raises. -/
def notifFault : DispatchFaults :=
  { regulatoryFails := false, analyticsFails := false, notificationFails := true }

/-- A fresh processor with an empty idempotency set. -/
def emptyProcState : ProcState := { processed := [] }

/-- A completed-transfer event for transfer 7, as produced by the api
service (`event_type` present, no `retry_count` field). -/
def completedEvent7 : EventData :=
  { transaction_id := some 7, event_type := some "transaction"
    retry_count := none, timestamp := some "2024-01-01T00:00:00Z"
    amount := some 5 }

/-- An event whose `transaction_id` field is `0`. -/
def zeroTidEvent : EventData :=
  { transaction_id := some 0, event_type := some "transaction"
    retry_count := none, timestamp := none, amount := none }

/-- An event carrying an event type the processor does not recognise, so
processing returns failure. -/
def unknownTypeEvent : EventData :=
  { transaction_id := some 42, event_type := some "mystery"
    retry_count := none, timestamp := none, amount := none }

/-!
## Helper lemmas about the transfer core
-/

/-- The returned value of `execute_transfer` is `ok` exactly when the try
body reached the commit with a completed row. -/
lemma execute_outcome_ok_iff (l : Ledger) (b : Bool) (rng f t : Nat)
    (amt : ℚ) (c : String) (tx : Transaction) :
    (execute_transfer l b rng f t amt c).outcome = Except.ok tx ↔
      transfer_core l rng f t amt c = CoreOutcome.okTx tx := by
  cases h : transfer_core l rng f t amt c <;> simp [execute_transfer, h]

/-- Structure of a successful run of the try body: the recorded snapshots
are the captured before-balances and the computed after-balances, the
amount is positive, the source's after-balance is nonnegative, and the
row is completed. -/
lemma transfer_core_ok_shape (l : Ledger) (rng f t : Nat) (amt : ℚ)
    (c : String) (tx : Transaction)
    (h : transfer_core l rng f t amt c = CoreOutcome.okTx tx) :
    tx.from_balance_after = tx.from_balance_before - tx.amount ∧
    tx.to_balance_after = tx.to_balance_before + tx.amount ∧
    tx.amount = amt ∧ 0 < amt ∧ 0 ≤ tx.from_balance_after ∧
    tx.status = TransactionStatus.completed := by
  unfold transfer_core at h
  repeat' split at h
  any_goals exact CoreOutcome.noConfusion h
  rename_i hpos hne xv1 facc heqv1 xv2 tacc heqv2 hcur xv3 bdl heqdl hdup
    xv4 a4 hfrom xv5 a5 hto
  injection h with h
  subst h
  unfold update_account_balance at hfrom
  split at hfrom
  · exact Except.noConfusion hfrom
  · rename_i hnn
    refine ⟨by simp [pendingTx], by simp [pendingTx], by simp [pendingTx],
      lt_of_not_le hpos, ?_, by simp [pendingTx]⟩
    simpa [pendingTx] using not_lt.mp hnn

/-- Evaluation of the demo transfer: moving 5 from the balance-10 account
to the balance-3 account returns the completed row `demoTx`. -/
lemma demo_transfer_outcome :
    (execute_transfer demoLedger true 0 1 2 5 "ILS").outcome = Except.ok demoTx := by
  norm_num [execute_transfer, transfer_core, validate_account_for_transfer,
    get_account_by_id, demoLedger, acctA, acctB, demoTx,
    check_daily_transfer_limits, dailyLimit, AccountType.value,
    update_account_balance, pendingTx, generate_transaction_id, decimalTruthy]
  decide

/-!
## Claims about the transfer protocol
-/

/-- Claim C1: for every transfer that `execute_transfer` completes
successfully, the recorded snapshots satisfy
`from_balance_after = from_balance_before - amount` and
`to_balance_after = to_balance_before + amount`, and therefore the sum of
the two after-balances equals the sum of the two before-balances
(conservation). -/
theorem execute_transfer_conservation (l : Ledger) (brokerUp : Bool)
    (rng f t : Nat) (amt : ℚ) (c : String) (tx : Transaction)
    (h : (execute_transfer l brokerUp rng f t amt c).outcome = Except.ok tx) :
    tx.from_balance_after = tx.from_balance_before - tx.amount ∧
    tx.to_balance_after = tx.to_balance_before + tx.amount ∧
    tx.from_balance_after + tx.to_balance_after
      = tx.from_balance_before + tx.to_balance_before := by
  obtain ⟨h1, h2, -⟩ := transfer_core_ok_shape l rng f t amt c tx
    ((execute_outcome_ok_iff l brokerUp rng f t amt c tx).mp h)
  exact ⟨h1, h2, by rw [h1, h2]; ring⟩

/-- Witness for C1 at a concrete input: transferring 5 between the demo
accounts (balances 10 and 3) yields the completed row `demoTx`, whose
after-balances 5 and 8 sum to the before-balances 10 and 3. -/
theorem execute_transfer_conservation_witness :
    (execute_transfer demoLedger true 0 1 2 5 "ILS").outcome = Except.ok demoTx ∧
    demoTx.from_balance_after + demoTx.to_balance_after
      = demoTx.from_balance_before + demoTx.to_balance_before :=
  ⟨demo_transfer_outcome,
   (execute_transfer_conservation demoLedger true 0 1 2 5 "ILS" demoTx
      demo_transfer_outcome).2.2⟩

/-- Claim C7: for every transfer whose ledger commit succeeds, a publish
failure (broker down, send error — all swallowed by
`kafka_client.py:43-60` and `transaction_service.py:104-113`) never raises
to the caller and never unwinds the commit: the call still returns the
completed `Transaction` and the committed ledger is identical. -/
theorem publish_failure_no_unwind (l : Ledger) (rng f t : Nat) (amt : ℚ)
    (c : String) (tx : Transaction)
    (h : (execute_transfer l true rng f t amt c).outcome = Except.ok tx) :
    (execute_transfer l false rng f t amt c).outcome = Except.ok tx ∧
    (execute_transfer l false rng f t amt c).ledger
      = (execute_transfer l true rng f t amt c).ledger := by
  have hc := (execute_outcome_ok_iff l true rng f t amt c tx).mp h
  exact ⟨(execute_outcome_ok_iff l false rng f t amt c tx).mpr hc,
    by simp [execute_transfer, hc]⟩

/-- Witness for C7: the demo transfer with the broker down still returns
`demoTx` and commits the same ledger as with the broker up. -/
theorem publish_failure_no_unwind_witness :
    (execute_transfer demoLedger false 0 1 2 5 "ILS").outcome = Except.ok demoTx ∧
    (execute_transfer demoLedger false 0 1 2 5 "ILS").ledger
      = (execute_transfer demoLedger true 0 1 2 5 "ILS").ledger :=
  publish_failure_no_unwind demoLedger 0 1 2 5 "ILS" demoTx demo_transfer_outcome

/-- Claim C2: a transfer request whose source account (existing, active)
has balance strictly below the requested amount fails with the
insufficient-funds error and leaves the committed ledger untouched (no
balance change, no row, no event); and no successful `execute_transfer`
ever records a negative source after-balance. -/
theorem insufficient_funds_rejected (l : Ledger) (brokerUp : Bool)
    (rng f t : Nat) (amt : ℚ) (c : String) (a : Account)
    (hacct : get_account_by_id l f = some a)
    (hact : a.status = AccountStatus.active)
    (hbal : a.balance < amt)
    (hamt : 0 < amt) (hne : f ≠ t) :
    (execute_transfer l brokerUp rng f t amt c).outcome
        = Except.error (TransferError.insufficientFunds f) ∧
    (execute_transfer l brokerUp rng f t amt c).ledger = l ∧
    (execute_transfer l brokerUp rng f t amt c).events = [] ∧
    ∀ (l' : Ledger) (b' : Bool) (rng' f' t' : Nat) (amt' : ℚ) (c' : String)
      (tx : Transaction),
      (execute_transfer l' b' rng' f' t' amt' c').outcome = Except.ok tx →
      0 ≤ tx.from_balance_after := by
  have hval : validate_account_for_transfer l f (some amt)
      = Except.error (TransferError.insufficientFunds f) := by
    simp [validate_account_for_transfer, hacct, hact, decimalTruthy, hbal,
      hamt.ne']
  have hcore : transfer_core l rng f t amt c
      = CoreOutcome.failNoRow (TransferError.insufficientFunds f) := by
    simp [transfer_core, hamt.not_le, hne, hval]
  refine ⟨by simp [execute_transfer, hcore], by simp [execute_transfer, hcore],
    by simp [execute_transfer, hcore], ?_⟩
  intro l' b' rng' f' t' amt' c' tx htx
  exact (transfer_core_ok_shape l' rng' f' t' amt' c' tx
    ((execute_outcome_ok_iff l' b' rng' f' t' amt' c' tx).mp htx)).2.2.2.2.1

/-- Witness for C2: transferring 100 from a balance of 50 is rejected
with insufficient funds and the ledger is unchanged (the spec's
scenario). -/
theorem insufficient_funds_rejected_witness :
    (execute_transfer poorLedger true 0 1 2 100 "ILS").outcome
        = Except.error (TransferError.insufficientFunds 1) ∧
    (execute_transfer poorLedger true 0 1 2 100 "ILS").ledger = poorLedger := by
  have h := insufficient_funds_rejected poorLedger true 0 1 2 100 "ILS" acctP
    (by norm_num [get_account_by_id, poorLedger, acctP, acctQ])
    (by norm_num [acctP]) (by norm_num [acctP]) (by norm_num) (by norm_num)
  exact ⟨h.1, h.2.1⟩

/-- Claim C9: `check_daily_transfer_limits` raises the ceiling-exceeded
error exactly when the amount is strictly greater than the account
class's limit; the tiers are vip 1000000, business 500000, and 100000 for
every other class (checking, savings), ordered highest to lowest
privilege; in particular a 2000000 transfer from a checking account is
rejected with an error naming the 100000 limit and the class. -/
theorem daily_ceiling_tiers :
    (∀ (a : Account) (amount : ℚ),
        check_daily_transfer_limits a amount
            = Except.error (TransferError.dailyLimitExceeded
                (dailyLimit a.account_type) a.account_type.value)
          ↔ dailyLimit a.account_type < amount) ∧
    dailyLimit AccountType.vip = 1000000 ∧
    dailyLimit AccountType.business = 500000 ∧
    dailyLimit AccountType.checking = 100000 ∧
    dailyLimit AccountType.savings = 100000 ∧
    dailyLimit AccountType.business < dailyLimit AccountType.vip ∧
    dailyLimit AccountType.checking < dailyLimit AccountType.business ∧
    check_daily_transfer_limits checkingAccount 2000000
      = Except.error (TransferError.dailyLimitExceeded 100000 "checking") := by
  refine ⟨?_, by decide, by decide, by decide, by decide, by decide, by decide,
    by decide⟩
  intro a amount
  unfold check_daily_transfer_limits
  split <;> simp_all

/-- Witness for C9 (projection of the concrete scenario conjunct): the
2000000 transfer from a checking account is rejected with
ceiling-exceeded. -/
theorem daily_ceiling_tiers_witness :
    check_daily_transfer_limits checkingAccount 2000000
      = Except.error (TransferError.dailyLimitExceeded 100000 "checking") :=
  daily_ceiling_tiers.2.2.2.2.2.2.2

/-- Evaluation of the colliding transfer: with a committed row already
holding identifier 100000 and the random draw 0, `execute_transfer` fails
with the duplicate-identifier error raised by the flush. -/
lemma dup_transfer_outcome :
    (execute_transfer dupLedger true 0 1 2 5 "ILS").outcome
      = Except.error (TransferError.duplicateTransactionId 100000) := by
  norm_num [execute_transfer, transfer_core, validate_account_for_transfer,
    get_account_by_id, dupLedger, acctA, acctB, priorTx,
    check_daily_transfer_limits, dailyLimit, AccountType.value,
    update_account_balance, pendingTx, generate_transaction_id, decimalTruthy]
  decide

/-- Claim C5 (evaluation of the defect at the failing input): with the
destination balance already negative, the try body fails with
`NegativeBalance` after the pending row was flushed (the `failWithRow`
outcome carries the flushed row), yet the recovery the claim describes
does not happen: the committed store is completely unchanged — no failed
audit row is persisted — and no retry-count-0 failed event is published,
because `session.rollback()` expunged the flushed row before the status
flip (so the follow-up commit persists nothing) and the event build
raised on the expunged object and was swallowed. -/
theorem flushed_row_recovery_lost :
    transfer_core negLedger 0 1 2 5 "ILS"
        = CoreOutcome.failWithRow (pendingTx 0 1 2 acctA acctN 5 "ILS")
            TransferError.negativeBalance ∧
    (execute_transfer negLedger true 0 1 2 5 "ILS").outcome
        = Except.error TransferError.negativeBalance ∧
    (execute_transfer negLedger true 0 1 2 5 "ILS").ledger = negLedger ∧
    (execute_transfer negLedger true 0 1 2 5 "ILS").events = [] := by
  have hc : transfer_core negLedger 0 1 2 5 "ILS"
      = CoreOutcome.failWithRow (pendingTx 0 1 2 acctA acctN 5 "ILS")
          TransferError.negativeBalance := by
    norm_num [transfer_core, validate_account_for_transfer, get_account_by_id,
      negLedger, acctA, acctN, check_daily_transfer_limits, dailyLimit,
      AccountType.value, update_account_balance, pendingTx,
      generate_transaction_id, decimalTruthy]
    decide
  exact ⟨hc, by simp [execute_transfer, hc], by simp [execute_transfer, hc],
    by simp [execute_transfer, hc]⟩

/-- Claim C6 (evaluation of the defect): `_generate_transaction_id` is a
pure function of the random draw and takes no store, so a draw colliding
with a committed row's identifier is not retried: at the colliding input
the transfer fails with the duplicate-identifier constraint violation
instead of attempting a new identifier. -/
theorem transaction_id_collision_not_retried :
    generate_transaction_id 0 = 100000 ∧
    priorTx.transaction_id = 100000 ∧
    (dupLedger.transactions.any
        (fun tr => tr.transaction_id = generate_transaction_id 0)) = true ∧
    (execute_transfer dupLedger true 0 1 2 5 "ILS").outcome
      = Except.error (TransferError.duplicateTransactionId 100000) :=
  ⟨rfl, rfl, by decide, dup_transfer_outcome⟩

/-!
## Claims about the event-consumption protocol
-/

/-- Claim C4: `process_transaction_event` is idempotent per transfer
identifier: if a call returned true (the identifier is then recorded in
the idempotency set), a second call with the same event returns true
immediately with the state unchanged and with no regulatory, analytics or
notification dispatch — even if the dispatch steps would now fail. -/
theorem process_event_idempotent (faults faults2 : DispatchFaults)
    (st : ProcState) (ev : EventData)
    (h1 : (process_transaction_event faults st ev).1 = true) :
    process_transaction_event faults2
        (process_transaction_event faults st ev).2.1 ev
      = (true, (process_transaction_event faults st ev).2.1, []) := by
  cases hid : ev.transaction_id with
  | none => simp [process_transaction_event, hid] at h1
  | some tid =>
    by_cases h0 : tid = 0
    · simp [process_transaction_event, hid, h0] at h1
    · by_cases hmem : tid ∈ st.processed
      · simp [process_transaction_event, hid, h0, hmem]
      · by_cases htype : ev.event_type.getD "transaction" = "transaction"
        · rcases hpc : process_completed_transaction faults ev with ⟨b, effects⟩
          cases b
          · simp [process_transaction_event, hid, h0, hmem, htype, hpc] at h1
          · simp [process_transaction_event, hid, h0, hmem, htype, hpc,
              List.mem_cons]
        · by_cases htype2 : ev.event_type.getD "transaction" = "failed_transaction"
          · simp [process_transaction_event, hid, h0, hmem, htype, htype2,
              List.mem_cons]
          · simp [process_transaction_event, hid, h0, hmem, htype, htype2] at h1

/-- Witness for C4: processing the completed event for transfer 7 twice —
the first call succeeds, the second returns true with no dispatch and no
state change. -/
theorem process_event_idempotent_witness :
    (process_transaction_event noFaults emptyProcState completedEvent7).1
        = true ∧
    process_transaction_event noFaults
        (process_transaction_event noFaults emptyProcState completedEvent7).2.1
        completedEvent7
      = (true,
          (process_transaction_event noFaults emptyProcState completedEvent7).2.1,
          []) :=
  ⟨by decide,
   process_event_idempotent noFaults noFaults emptyProcState completedEvent7
     (by decide)⟩

/-- Claim C10: an event whose `transaction_id` is absent or zero is
rejected by `process_transaction_event` with no state change and no
dispatched side effects, because the guard is a Python truthiness check
(`if not transaction_id`), under which `0` and a missing key behave the
same. -/
theorem missing_or_zero_tid_rejected (faults : DispatchFaults)
    (st : ProcState) (ev : EventData)
    (h : ev.transaction_id = none ∨ ev.transaction_id = some 0) :
    process_transaction_event faults st ev = (false, st, []) := by
  rcases h with h | h <;> simp [process_transaction_event, h]

/-- Witness for C10: the zero-identifier event is rejected with no side
effects. -/
theorem missing_or_zero_tid_rejected_witness :
    process_transaction_event noFaults emptyProcState zeroTidEvent
      = (false, emptyProcState, []) :=
  missing_or_zero_tid_rejected noFaults emptyProcState zeroTidEvent (Or.inr rfl)

/-- Claim C8: whenever processing a message fails (the processor returns
false, which covers dispatch steps raising — they are caught inside
`_process_completed_transaction`), the consumer republishes to the failed
topic exactly one event carrying the original payload intact as
`original_event`, an `error_message`, and
`retry_count = incoming retry_count (default 0) + 1`; a first-time
failure (no `retry_count` field) therefore carries `retry_count = 1`. -/
theorem processing_failure_republished (faults : DispatchFaults)
    (st : ProcState) (ev : EventData)
    (hfail : (process_transaction_event faults st ev).1 = false) :
    (process_message faults true st ev).2
        = [mkFailedEvent ev "Processing failed"] ∧
    (mkFailedEvent ev "Processing failed").original_event = ev ∧
    (mkFailedEvent ev "Processing failed").retry_count
        = ev.retry_count.getD 0 + 1 ∧
    (mkFailedEvent ev "Processing failed").error_message = "Processing failed" ∧
    (ev.retry_count = none →
      (mkFailedEvent ev "Processing failed").retry_count = 1) := by
  refine ⟨?_, rfl, rfl, rfl, ?_⟩
  · rcases hp : process_transaction_event faults st ev with ⟨b, st2, effs⟩
    cases b
    · simp [process_message, hp, send_to_failed_topic]
    · rw [hp] at hfail; simp at hfail
  · intro h
    simp [mkFailedEvent, h]

/-- Witness for C8 (the spec's scenario): dispatch raises on the third of
three steps for the completed event of transfer 7, and the republished
failed event carries the original payload and `retry_count = 1`. -/
theorem processing_failure_republished_witness :
    (process_message notifFault true emptyProcState completedEvent7).2
      = [mkFailedEvent completedEvent7 "Processing failed"] ∧
    (mkFailedEvent completedEvent7 "Processing failed").original_event
      = completedEvent7 ∧
    (mkFailedEvent completedEvent7 "Processing failed").retry_count = 1 := by
  have h := processing_failure_republished notifFault emptyProcState
    completedEvent7 (by decide)
  exact ⟨h.1, h.2.1, h.2.2.2.2 rfl⟩

/-- Claim C3 counterexample: a pulled message with an unrecognised event
type makes the Transaction Processor return failure, yet the consume step
still commits the offset (`_process_message` catches every processing
error and routes the message to the failed topic, so control reaches
`consumer.commit()`), contradicting commit-only-on-success. -/
theorem commit_despite_processing_failure :
    (process_transaction_event noFaults emptyProcState unknownTypeEvent).1
        = false ∧
    (consume_one noFaults true false emptyProcState unknownTypeEvent).committed
        = true := by
  decide

/-- Claim C3 (amended): the consumer commits the offset after every
message whose handling completes without an escaping exception — which,
because `_process_message` catches all processing errors, is every
message regardless of processor success, unless the commit call itself
raises; a message whose processing returns failure is still committed and
is routed to the failed-transfer topic instead of being redelivered. -/
theorem consume_commit_independent_of_success (faults : DispatchFaults)
    (producerUp commitFails : Bool) (st : ProcState) (msg : EventData) :
    (consume_one faults producerUp commitFails st msg).committed
        = !commitFails ∧
    ((process_transaction_event faults st msg).1 = false →
      (consume_one faults true commitFails st msg).failedSent
        = [mkFailedEvent msg "Processing failed"]) := by
  constructor
  · rcases hp : process_message faults producerUp st msg with ⟨st2, sent⟩
    simp [consume_one, hp]
  · intro hfail
    rcases hp : process_transaction_event faults st msg with ⟨b, st2, effs⟩
    rw [hp] at hfail
    cases b
    · simp [consume_one, process_message, hp, send_to_failed_topic]
    · simp at hfail

/-- Witness for the amended C3 at the failing message: the offset is
committed and the message lands on the failed topic. -/
theorem consume_commit_independent_of_success_witness :
    (consume_one noFaults true false emptyProcState unknownTypeEvent).committed
        = true ∧
    (consume_one noFaults true false emptyProcState unknownTypeEvent).failedSent
        = [mkFailedEvent unknownTypeEvent "Processing failed"] := by
  have h := consume_commit_independent_of_success noFaults true false
    emptyProcState unknownTypeEvent
  exact ⟨by simpa using h.1, h.2 (by decide)⟩
